import Mathlib

/-!
Verification of the chat-mentor request pipeline
(`src/backend/controllers/mentorController.js`).

The controller is embedded shallowly: JS strings become Lean `String`
(scanning runs over `String.data`, the underlying `List Char`), the
regular-expression tests of the source are compiled to explicit
word-boundary / substring scanners with JS `\b` semantics (word
characters are ASCII letters, digits and underscore), and the two
external collaborators (the Mongo profile store and the Gemini
completion engine) are parameters of the handler whose outcomes are
`Except`/`Option` values.  The handler returns, next to the reply
object, the ordered trace of external calls it made, so that claims
about call counts and call ordering are statable.
-/

namespace MentorChat

/-! ## Character-level primitives (JS semantics) -/

/-- JS `\w` word character: `[A-Za-z0-9_]` (used by the `\b` boundary). -/
def isWordChar (c : Char) : Bool :=
  (65 ≤ c.toNat && c.toNat ≤ 90) || (97 ≤ c.toNat && c.toNat ≤ 122) ||
  (48 ≤ c.toNat && c.toNat ≤ 57) || c = '_'

/-- Whitespace stripped by JS `String.prototype.trim` (ASCII core). -/
def isSpaceChar (c : Char) : Bool :=
  c = ' ' || c = '\t' || c = '\r' || c = '\n'

/-- JS `String.prototype.toLowerCase` on one character (ASCII range;
the source's patterns and messages only exercise ASCII case). -/
def jsLowerChar (c : Char) : Char :=
  if 65 ≤ c.toNat ∧ c.toNat ≤ 90 then Char.ofNat (c.toNat + 32) else c

/-! ## String-level primitives -/

def lowerData (l : List Char) : List Char := l.map jsLowerChar

def trimLeftData (l : List Char) : List Char := l.dropWhile isSpaceChar

def trimRightData (l : List Char) : List Char :=
  (l.reverse.dropWhile isSpaceChar).reverse

def trimData (l : List Char) : List Char := trimRightData (trimLeftData l)

/-- JS `toLowerCase`. -/
def jsToLowerCase (s : String) : String := ⟨lowerData s.data⟩

/-- JS `trim`. -/
def jsTrim (s : String) : String := ⟨trimData s.data⟩

/-- JS `message.toLowerCase().trim()` — the normalization at line 14 of the
controller (`lowerMsg`). -/
def normalizeMsg (s : String) : String := jsTrim (jsToLowerCase s)

/-- Boolean prefix test on character lists. -/
def isPrefixData : List Char → List Char → Bool
  | [], _ => true
  | _ :: _, [] => false
  | a :: as, b :: bs => a == b && isPrefixData as bs

/-- Substring occurrence (JS `String.prototype.includes` /
an unanchored regex literal with no `\b`). -/
def containsData (pat : List Char) : List Char → Bool
  | [] => isPrefixData pat []
  | c :: rest => isPrefixData pat (c :: rest) || containsData pat rest

/-- A `\b` boundary holds against the neighbouring character
(none at the ends of the string). -/
def boundaryOk (c? : Option Char) : Bool :=
  match c? with
  | none => true
  | some c => !isWordChar c

/-- The pattern occurs at the current position with `\b` on both sides;
`prev` is the character immediately before the position. -/
def wbHere (pat s : List Char) (prev : Option Char) : Bool :=
  boundaryOk prev && isPrefixData pat s && boundaryOk ((s.drop pat.length).head?)

/-- Scan all positions for a `\b pat \b` occurrence. -/
def wbFrom (pat : List Char) : Option Char → List Char → Bool
  | prev, [] => wbHere pat [] prev
  | prev, c :: rest => wbHere pat (c :: rest) prev || wbFrom pat (some c) rest

/-- JS `/\bpat\b/.test(s)`. -/
def wbMatch (pat s : List Char) : Bool := wbFrom pat none s

/-- JS `/\b(p₁|…|pₙ)\b/.test(s)`. -/
def wbAnyTest (pats : List String) (s : String) : Bool :=
  pats.any (fun p => wbMatch p.data s.data)

/-- JS `s.includes(pat)` / `/(pat)/.test(s)`. -/
def containsTest (pat s : String) : Bool := containsData pat.data s.data

/-! ## The controller's pattern tests (lines 17–46) -/

/-- Alternatives of `appreciationRegex` (line 18). -/
def appreciationTerms : List String :=
  ["thanks", "thank you", "good work", "nice", "awesome", "great", "cool",
   "well done", "good bot", "helpful", "ok", "okay", "good"]

/-- Test `appreciationRegex.test(lowerMsg)` (line 20). -/
def appreciationTest (lowerMsg : String) : Bool :=
  wbAnyTest appreciationTerms lowerMsg

def shortWord : String := "short"

/-- Test `/\bshort(en|ly)?\b/.test(lowerMsg) || lowerMsg.includes("short")`
(lines 34–35). -/
def wantsShortTest (lowerMsg : String) : Bool :=
  wbAnyTest [shortWord, "shorten", "shortly"] lowerMsg ||
  containsTest shortWord lowerMsg

def inOneLinePhrase : String := "in one line"

/-- Test `/\b(one line|1 line|single line)\b/.test(lowerMsg) ||
lowerMsg.includes("in one line")` (lines 36–38). -/
def wantsOneLineTest (lowerMsg : String) : Bool :=
  wbAnyTest ["one line", "1 line", "single line"] lowerMsg ||
  containsTest inOneLinePhrase lowerMsg

/-- Telugu detection `/[ఀ-౿]/.test(message)` (line 41): a character of the
Telugu Unicode block occurs in the original, non-normalized message. -/
def isTeluguTest (message : String) : Bool :=
  message.data.any (fun c => 0x0C00 ≤ c.toNat && c.toNat ≤ 0x0C7F)

/-- Alternatives of the transliterated-phrase regex (line 45): plain
substring matches, no word boundary. -/
def translitPhrases : List String := ["gurinchi", "cheppu", "chepu"]

/-- Test `/(gurinchi|cheppu|chepu)/.test(lowerMsg) ||
/\b(what is|explain|tell me about|definition of)\b/.test(lowerMsg)`
(lines 44–46). -/
def isDefinitionRequestTest (lowerMsg : String) : Bool :=
  translitPhrases.any (fun p => containsTest p lowerMsg) ||
  wbAnyTest ["what is", "explain", "tell me about", "definition of"] lowerMsg

/-! ## Data model -/

structure Skill where
  skillName : String
  proficiency : String
deriving DecidableEq

/-- The document returned by `User.findById(..).select("skills")`;
`none` models a null user. -/
structure UserDoc where
  skills : List Skill
deriving DecidableEq

/-- One prior turn of `req.body.history`: `{role, content}`. -/
structure Turn where
  role : String
  content : String
deriving DecidableEq

/-- Shape `\x7btext: …\x7d`; the engine's answer may lack the field. -/
structure GenPart where
  text : Option String
deriving DecidableEq

/-- Shape `\x7brole, parts\x7d` — handed to / returned by the engine. -/
structure GenContentMsg where
  role : String
  parts : List GenPart
deriving DecidableEq

structure GenCandidate where
  content : Option GenContentMsg
deriving DecidableEq

structure GenResponse where
  candidates : Option (List GenCandidate)
deriving DecidableEq

/-- The value resolved by `model.generateContent`. -/
structure GenResult where
  response : Option GenResponse
deriving DecidableEq

/-- The JSON body sent in every branch: `{role, content}`. -/
structure Reply where
  role : String
  content : String
deriving DecidableEq

/-- Fields of `req.body` used by the controller; `history` may be absent
(`history || []`). -/
structure ChatRequest where
  message : String
  history : Option (List Turn)

/-- One observable call to an external collaborator, in order. -/
inductive ExtCall where
  | profileFetch
  | engineCall (contents : List GenContentMsg)
deriving DecidableEq

/-! ## Fixed reply strings and the canned pool (lines 21–26, 92–103) -/

def quickReplies : List String :=
  ["👍 Glad you found it useful!",
   "😊 Thank you! I’m always here to guide you on your career journey.",
   "🙌 Happy to help! Let me know what you’d like to explore next.",
   "✨ Great! Ready whenever you want to continue."]

/-- Fallback substituted for a missing/empty engine answer (line 94). -/
def fallbackText : String := "⚠️ Sorry, I couldn’t generate a response."

/-- Apology sent from the `catch` block (lines 99–103). -/
def apologyText : String :=
  "⚠️ Sorry, I\x27m having trouble connecting to my brain right now. Please try again later."

/-! ## Context assembly (lines 49–81) -/

/-- Template literal rendering one skill as name (proficiency), line 51. -/
def renderSkill (s : Skill) : String :=
  s.skillName ++ " (" ++ s.proficiency ++ ")"

/-- JS `Array.prototype.join(sep)`. -/
def joinWith (sep : String) : List String → String
  | [] => ""
  | [x] => x
  | x :: y :: xs => x ++ sep ++ joinWith sep (y :: xs)

/-- Rendering `user?.skills?.length ? user.skills.map(…).join(", ") : "None"`
(lines 50–52). -/
def renderSkills (u? : Option UserDoc) : String :=
  match u? with
  | some u =>
    if u.skills.length ≠ 0 then joinWith ", " (u.skills.map renderSkill)
    else "None"
  | none => "None"

def teluguDefContext : String :=
  "The user is asking for a definition/explanation in Telugu."

def englishDefContext : String :=
  "The user is asking for a definition/explanation in English."

def careerContext (userSkills : String) : String :=
  "The user is asking for career advice. They have the following skills: " ++
  userSkills ++ "."

/-- The `systemContext` if/else chain (lines 55–62). -/
def buildSystemContext (isTelugu isDefReq : Bool) (userSkills : String) : String :=
  if isTelugu && isDefReq then teluguDefContext
  else if isDefReq then englishDefContext
  else careerContext userSkills

def briefLine : String := "\nAssistant: Please answer briefly in 2-3 sentences."

def oneSentenceLine : String := "\nAssistant: Please answer in exactly one sentence."

def teluguLine : String :=
  "\nAssistant: Respond in Telugu language, focusing on career guidance."

/-- The `finalMessage` construction (lines 71–81). -/
def buildFinalMessage (systemCtx message : String)
    (wantsShort wantsOneLine isTelugu isDefReq : Bool) : String :=
  let m1 := systemCtx ++ "\nUser: " ++ message
  let m2 := if wantsShort then m1 ++ briefLine else m1
  let m3 := if wantsOneLine then m2 ++ oneSentenceLine else m2
  if isTelugu && !isDefReq then m3 ++ teluguLine else m3

/-- Mapping `(history || []).map(...)` of a prior turn to the engine shape
(lines 65–68). -/
def toEngineTurn (t : Turn) : GenContentMsg :=
  ⟨t.role, [⟨some t.content⟩]⟩

/-- The `contents` array: the mapped history with the new user turn appended
(line 89). -/
def buildContents (history : List Turn) (finalMessage : String) : List GenContentMsg :=
  history.map toEngineTurn ++ [⟨"user", [⟨some finalMessage⟩]⟩]

/-- Optional chaining `result?.response?.candidates?.[0]?.content?.parts?.[0]?.text`
(lines 92–93), as optional chaining. -/
def extractText (r : GenResult) : Option String :=
  match r.response with
  | none => none
  | some resp =>
    match resp.candidates with
    | none => none
    | some cands =>
      match cands.head? with
      | none => none
      | some c =>
        match c.content with
        | none => none
        | some ct =>
          match ct.parts.head? with
          | none => none
          | some p => p.text

/-- Reply extraction with fallback (lines 92–94);
an empty extracted string is falsy in JS and also falls back. -/
def replyFromResult (r : GenResult) : String :=
  match extractText r with
  | some t => if t = "" then fallbackText else t
  | none => fallbackText

/-- The final message the delegated path assembles for a given message and
profile-store document: the composition of lines 34–46 (pattern tests),
49–52 (skill rendering), 55–62 (system context) and 71–81 (appends). -/
def assembledFinalMessage (message : String) (ud : Option UserDoc) : String :=
  let lowerMsg := normalizeMsg message
  buildFinalMessage
    (buildSystemContext (isTeluguTest message) (isDefinitionRequestTest lowerMsg)
      (renderSkills ud))
    message (wantsShortTest lowerMsg) (wantsOneLineTest lowerMsg)
    (isTeluguTest message) (isDefinitionRequestTest lowerMsg)

/-! ## Intent, as the controller's effective classification -/

inductive Intent where
  | appreciation
  | definitionRequest
  | careerAdvice
deriving DecidableEq

/-- The intent that the control flow of `getChatResponse` acts on:
the appreciation test short-circuits (line 20) and otherwise the
`systemContext` chain discriminates definition requests (lines 55–62),
with career advice as the fallback. -/
def classifyIntent (message : String) : Intent :=
  let lowerMsg := normalizeMsg message
  if appreciationTest lowerMsg then Intent.appreciation
  else if isDefinitionRequestTest lowerMsg then Intent.definitionRequest
  else Intent.careerAdvice

/-! ## The handler -/

/-- The handler `exports.getChatResponse` (lines 10–105).  `fetchSkills` is the
outcome of `User.findById(req.user.id).select("skills")`, `engine` the
outcome of `model.generateContent` as a function of the `contents`
argument, and `rand` the value of
`Math.floor(Math.random() * quickReplies.length)`.  The second
component is the ordered trace of external calls awaited. -/
def getChatResponse (req : ChatRequest)
    (fetchSkills : Except Unit (Option UserDoc))
    (engine : List GenContentMsg → Except Unit GenResult)
    (rand : Fin quickReplies.length) : Reply × List ExtCall :=
  let lowerMsg := normalizeMsg req.message
  if appreciationTest lowerMsg then
    (⟨"assistant", quickReplies.get rand⟩, [])
  else
    let wantsShort := wantsShortTest lowerMsg
    let wantsOneLine := wantsOneLineTest lowerMsg
    let isTelugu := isTeluguTest req.message
    let isDefReq := isDefinitionRequestTest lowerMsg
    match fetchSkills with
    | Except.error _ => (⟨"assistant", apologyText⟩, [ExtCall.profileFetch])
    | Except.ok userDoc =>
      let userSkills := renderSkills userDoc
      let systemCtx := buildSystemContext isTelugu isDefReq userSkills
      let chatHistory := req.history.getD []
      let finalMessage :=
        buildFinalMessage systemCtx req.message wantsShort wantsOneLine isTelugu isDefReq
      let contents := buildContents chatHistory finalMessage
      match engine contents with
      | Except.error _ =>
        (⟨"assistant", apologyText⟩, [ExtCall.profileFetch, ExtCall.engineCall contents])
      | Except.ok r =>
        (⟨"assistant", jsTrim (replyFromResult r)⟩,
         [ExtCall.profileFetch, ExtCall.engineCall contents])

/-! ## Helper lemmas -/

theorem charOfNat_toNat {m : Nat} (h : m.isValidChar) : (Char.ofNat m).toNat = m := by
  simp [Char.ofNat, dif_pos h, Char.ofNatAux, Char.toNat, UInt32.toNat]

theorem jsLowerChar_idem (c : Char) : jsLowerChar (jsLowerChar c) = jsLowerChar c := by
  unfold jsLowerChar
  by_cases h : 65 ≤ c.toNat ∧ c.toNat ≤ 90
  · have hv : (c.toNat + 32).isValidChar := by
      left; omega
    rw [if_pos h, charOfNat_toNat hv] at *
    rw [if_neg (by omega)]
  · rw [if_neg h, if_neg h]

theorem lowerData_of_lowered {l : List Char} (h : ∀ c ∈ l, jsLowerChar c = c) :
    lowerData l = l := by
  unfold lowerData
  calc l.map jsLowerChar = l.map id := List.map_congr_left h
  _ = l := List.map_id l

theorem trimRightData_eq_rdropWhile (l : List Char) :
    trimRightData l = List.rdropWhile isSpaceChar l := rfl

theorem dropWhile_of_prefix_self {p : Char → Bool} {v u : List Char}
    (hvu : List.IsPrefix v u) (hu : u.dropWhile p = u) : v.dropWhile p = v := by
  cases v with
  | nil => rfl
  | cons x xs =>
    obtain ⟨t, rfl⟩ := hvu
    by_cases hp : p x = true
    · exfalso
      rw [List.cons_append, List.dropWhile_cons_of_pos hp] at hu
      have hle : (List.dropWhile p (xs ++ t)).length ≤ (xs ++ t).length :=
        (List.dropWhile_sublist p).length_le
      rw [hu] at hle
      simp at hle
    · exact List.dropWhile_cons_of_neg (by simpa using hp)

theorem mem_of_mem_trimData {c : Char} {l : List Char} (h : c ∈ trimData l) : c ∈ l := by
  unfold trimData at h
  rw [trimRightData_eq_rdropWhile] at h
  have h1 : c ∈ trimLeftData l :=
    (List.rdropWhile_prefix isSpaceChar (trimLeftData l)).sublist.subset h
  exact (List.dropWhile_sublist isSpaceChar).subset h1

theorem trimData_idem (l : List Char) : trimData (trimData l) = trimData l := by
  unfold trimData trimLeftData
  rw [trimRightData_eq_rdropWhile, trimRightData_eq_rdropWhile]
  have h1 : List.dropWhile isSpaceChar
      (List.rdropWhile isSpaceChar (List.dropWhile isSpaceChar l)) =
      List.rdropWhile isSpaceChar (List.dropWhile isSpaceChar l) :=
    dropWhile_of_prefix_self
      (List.rdropWhile_prefix isSpaceChar (List.dropWhile isSpaceChar l))
      (List.dropWhile_idempotent isSpaceChar l)
  rw [h1, List.rdropWhile_idempotent]

/-! ## C9 -/

/-- C9: message normalization (lower-case then trim, line 14) is
idempotent — normalizing twice equals normalizing once, for every input
string.  The embedding is a pure function of the input, so it cannot
throw and leaves the original string untouched. -/
theorem normalization_idempotent (s : String) :
    normalizeMsg (normalizeMsg s) = normalizeMsg s := by
  have hfix : ∀ c ∈ trimData (lowerData s.data), jsLowerChar c = c := by
    intro c hc
    have hm : c ∈ lowerData s.data := mem_of_mem_trimData hc
    obtain ⟨a, _, rfl⟩ := List.mem_map.mp hm
    exact jsLowerChar_idem a
  have key : trimData (lowerData (trimData (lowerData s.data))) =
      trimData (lowerData s.data) := by
    rw [lowerData_of_lowered hfix, trimData_idem]
  exact congrArg String.mk key

theorem buildFinalMessage_eq (sc msg : String) (ws wo t d : Bool) :
    buildFinalMessage sc msg ws wo t d =
      sc ++ "\nUser: " ++ msg ++
        (if ws then briefLine else "") ++
        (if wo then oneSentenceLine else "") ++
        (if t && !d then teluguLine else "") := by
  unfold buildFinalMessage
  cases ws <;> cases wo <;> cases t <;> cases d <;>
    simp [String.append_assoc]

theorem reply_role_assistant (req : ChatRequest)
    (fetchSkills : Except Unit (Option UserDoc))
    (engine : List GenContentMsg → Except Unit GenResult)
    (rand : Fin quickReplies.length) :
    (getChatResponse req fetchSkills engine rand).1.role = "assistant" := by
  unfold getChatResponse
  by_cases h : appreciationTest (normalizeMsg req.message) = true
  · rw [if_pos h]
  · rw [if_neg h]
    cases fetchSkills with
    | error e => rfl
    | ok u =>
      dsimp only
      split <;> rfl

theorem getChatResponse_delegated (req : ChatRequest) (u : Option UserDoc)
    (engine : List GenContentMsg → Except Unit GenResult)
    (rand : Fin quickReplies.length)
    (hA : appreciationTest (normalizeMsg req.message) = false) :
    getChatResponse req (Except.ok u) engine rand =
      (match engine (buildContents (req.history.getD [])
          (assembledFinalMessage req.message u)) with
       | Except.error _ =>
         (⟨"assistant", apologyText⟩,
          [ExtCall.profileFetch,
           ExtCall.engineCall (buildContents (req.history.getD [])
             (assembledFinalMessage req.message u))])
       | Except.ok r =>
         (⟨"assistant", jsTrim (replyFromResult r)⟩,
          [ExtCall.profileFetch,
           ExtCall.engineCall (buildContents (req.history.getD [])
             (assembledFinalMessage req.message u))])) := by
  unfold getChatResponse assembledFinalMessage
  rw [if_neg (by simp [hA])]

/-! ## C1 -/

/-- C1: whenever the normalized message matches the appreciation
regex (a word-boundary match against the fixed vocabulary), the handler
answers with a member of the fixed canned-reply pool, with role
`assistant`, and its external-call trace is empty — in particular zero
completion-engine calls — regardless of the profile store, the engine,
the history, and of whether a definition phrase also occurs. -/
theorem appreciation_short_circuit (req : ChatRequest)
    (fetchSkills : Except Unit (Option UserDoc))
    (engine : List GenContentMsg → Except Unit GenResult)
    (rand : Fin quickReplies.length)
    (h : appreciationTest (normalizeMsg req.message) = true) :
    (getChatResponse req fetchSkills engine rand).1.role = "assistant" ∧
    (getChatResponse req fetchSkills engine rand).1.content ∈ quickReplies ∧
    (getChatResponse req fetchSkills engine rand).2 = [] := by
  unfold getChatResponse
  rw [if_pos h]
  exact ⟨rfl, List.get_mem quickReplies rand.1 rand.2, rfl⟩

/-- Witness for C1 at the concrete message
"thanks, what is recursion", which matches both an appreciation term and
a definition phrase, with a profile store returning no user and an
engine that always fails (and so would surface if it were called). -/
theorem appreciation_short_circuit_witness :
    appreciationTest (normalizeMsg ("thanks, what is recursion")) = true ∧
    isDefinitionRequestTest (normalizeMsg ("thanks, what is recursion")) = true ∧
    ((getChatResponse ⟨"thanks, what is recursion", none⟩ (Except.ok none)
        (fun _ => Except.error ()) ⟨0, by decide⟩).1.role = "assistant" ∧
     (getChatResponse ⟨"thanks, what is recursion", none⟩ (Except.ok none)
        (fun _ => Except.error ()) ⟨0, by decide⟩).1.content ∈ quickReplies ∧
     (getChatResponse ⟨"thanks, what is recursion", none⟩ (Except.ok none)
        (fun _ => Except.error ()) ⟨0, by decide⟩).2 = []) :=
  ⟨by decide, by decide,
   appreciation_short_circuit ⟨"thanks, what is recursion", none⟩ (Except.ok none)
     (fun _ => Except.error ()) ⟨0, by decide⟩ (by decide)⟩

/-! ## C2 -/

/-- C2: the system context follows the fixed three-way precedence of
lines 55–62 — Telugu definition request when both flags hold, English
definition request when only the definition flag holds, career advice
with the rendered skill snapshot otherwise — and in the definition-request
case the final message never receives the respond-in-alternate-language
directive (its appending at lines 78–81 requires the intent not to be a
definition request); concretely, for the Telugu message
"అ గురించి cheppu" the assembled final message is exactly the Telugu
definition context plus the echoed user line, with no directive. -/
theorem systemContext_precedence (sk sc msg : String) (ws wo t d : Bool) :
    buildSystemContext t d sk =
      (if t && d then teluguDefContext
       else if d then englishDefContext
       else careerContext sk) ∧
    buildFinalMessage sc msg ws wo t true = buildFinalMessage sc msg ws wo false true ∧
    buildSystemContext (isTeluguTest ("అ గురించి cheppu"))
      (isDefinitionRequestTest (normalizeMsg ("అ గురించి cheppu"))) sk = teluguDefContext ∧
    assembledFinalMessage ("అ గురించి cheppu") (some ⟨[]⟩) =
      teluguDefContext ++ "\nUser: " ++ "అ గురించి cheppu" := by
  refine ⟨rfl, by simp [buildFinalMessage], ?_, by decide⟩
  have h1 : isTeluguTest ("అ గురించి cheppu") = true := by decide
  have h2 : isDefinitionRequestTest (normalizeMsg ("అ గురించి cheppu")) = true := by decide
  rw [h1, h2]
  rfl

/-! ## C3 -/

/-- C3: for every flag combination, the final message of lines 71–81 is
the system context, a newline, `User: ` and the original text, followed
by zero to three appended lines in the fixed order brevity directive
(iff the brief flag), single-sentence directive (iff the one-line flag),
alternate-language instruction (iff Telugu detected and not a definition
request); equivalently for the assembled message of the delegated path
with the flags actually extracted from the message. -/
theorem finalMessage_fixed_order (sc msg message : String) (ud : Option UserDoc)
    (ws wo t d : Bool) :
    buildFinalMessage sc msg ws wo t d =
      sc ++ "\nUser: " ++ msg ++
        (if ws then briefLine else "") ++
        (if wo then oneSentenceLine else "") ++
        (if t && !d then teluguLine else "") ∧
    assembledFinalMessage message ud =
      buildSystemContext (isTeluguTest message)
          (isDefinitionRequestTest (normalizeMsg message)) (renderSkills ud) ++
        "\nUser: " ++ message ++
        (if wantsShortTest (normalizeMsg message) then briefLine else "") ++
        (if wantsOneLineTest (normalizeMsg message) then oneSentenceLine else "") ++
        (if isTeluguTest message && !(isDefinitionRequestTest (normalizeMsg message))
         then teluguLine else "") :=
  ⟨buildFinalMessage_eq sc msg ws wo t d,
   buildFinalMessage_eq _ message _ _ _ _⟩

/-! ## C5 -/

/-- C5: the conversation handed to the completion engine (line 89) is
the prior turns, each mapped to `{role, parts: [{text: content}]}` in
their original order with nothing filtered, deduplicated or truncated,
followed by exactly one new turn whose role is `user` and whose text is
the assembled final message; so its length is the prior length plus one,
its last element is the new turn, and its length-long prefix is the
mapped history; and on the delegated path the handler's trace records
exactly that conversation being sent. -/
theorem conversation_roundtrip (history : List Turn) (fm : String)
    (req : ChatRequest) (u : Option UserDoc)
    (engine : List GenContentMsg → Except Unit GenResult)
    (rand : Fin quickReplies.length)
    (hA : appreciationTest (normalizeMsg req.message) = false) :
    (buildContents history fm).length = history.length + 1 ∧
    (buildContents history fm).getLast? = some ⟨"user", [⟨some fm⟩]⟩ ∧
    (buildContents history fm).take history.length = history.map toEngineTurn ∧
    (getChatResponse req (Except.ok u) engine rand).2 =
      [ExtCall.profileFetch,
       ExtCall.engineCall (buildContents (req.history.getD [])
         (assembledFinalMessage req.message u))] := by
  refine ⟨by simp [buildContents], ?_, ?_, ?_⟩
  · unfold buildContents
    exact List.getLast?_concat _
  · unfold buildContents
    exact List.take_left' (by simp)
  · rw [getChatResponse_delegated req u engine rand hA]
    cases engine (buildContents (req.history.getD [])
      (assembledFinalMessage req.message u)) with
    | error e => rfl
    | ok r => rfl

/-- Witness for C5: a two-turn history, a definition-request message with
one prior turn in the request, a null user document and an engine that
answers with an empty candidate list. -/
theorem conversation_roundtrip_witness :
    appreciationTest (normalizeMsg ("explain recursion")) = false ∧
    ((buildContents [⟨"user", "hi"⟩, ⟨"model", "hello"⟩] ("FM")).length =
        ([⟨"user", "hi"⟩, ⟨"model", "hello"⟩] : List Turn).length + 1 ∧
     (buildContents [⟨"user", "hi"⟩, ⟨"model", "hello"⟩] ("FM")).getLast? =
        some ⟨"user", [⟨some ("FM")⟩]⟩ ∧
     (buildContents [⟨"user", "hi"⟩, ⟨"model", "hello"⟩] ("FM")).take
        ([⟨"user", "hi"⟩, ⟨"model", "hello"⟩] : List Turn).length =
        ([⟨"user", "hi"⟩, ⟨"model", "hello"⟩] : List Turn).map toEngineTurn ∧
     (getChatResponse ⟨"explain recursion", some [⟨"user", "hi"⟩]⟩ (Except.ok none)
        (fun _ => Except.ok ⟨some ⟨some []⟩⟩) ⟨0, by decide⟩).2 =
       [ExtCall.profileFetch,
        ExtCall.engineCall (buildContents
          ((some [⟨"user", "hi"⟩] : Option (List Turn)).getD [])
          (assembledFinalMessage ("explain recursion") none))]) :=
  ⟨by decide,
   conversation_roundtrip [⟨"user", "hi"⟩, ⟨"model", "hello"⟩] ("FM")
     ⟨"explain recursion", some [⟨"user", "hi"⟩]⟩ none
     (fun _ => Except.ok ⟨some ⟨some []⟩⟩) ⟨0, by decide⟩ (by decide)⟩

/-! ## C4 -/

/-- C4: a completion-engine call that fails makes the handler answer
with the fixed apology string (lines 97–103); an engine call that
resolves but yields no candidate or an empty/missing text field makes it
answer with the distinct fixed fallback string (lines 92–94); the two
strings differ, and every path — appreciation, profile failure, engine
failure, success — returns an object whose role is `assistant` and whose
content is a string, so no exception escapes the handler. -/
theorem failure_and_degenerate_replies (req : ChatRequest) (u : Option UserDoc)
    (engine : List GenContentMsg → Except Unit GenResult)
    (rand : Fin quickReplies.length) (r : GenResult)
    (hA : appreciationTest (normalizeMsg req.message) = false) :
    apologyText ≠ fallbackText ∧
    (∀ (req2 : ChatRequest) (fetch2 : Except Unit (Option UserDoc))
        (engine2 : List GenContentMsg → Except Unit GenResult)
        (rand2 : Fin quickReplies.length),
      (getChatResponse req2 fetch2 engine2 rand2).1.role = "assistant") ∧
    (engine (buildContents (req.history.getD [])
        (assembledFinalMessage req.message u)) = Except.error () →
      (getChatResponse req (Except.ok u) engine rand).1.content = apologyText) ∧
    (engine (buildContents (req.history.getD [])
        (assembledFinalMessage req.message u)) = Except.ok r →
      extractText r = none ∨ extractText r = some "" →
      (getChatResponse req (Except.ok u) engine rand).1.content = fallbackText) := by
  refine ⟨by decide,
    fun req2 fetch2 engine2 rand2 => reply_role_assistant req2 fetch2 engine2 rand2,
    ?_, ?_⟩
  · intro hE
    rw [getChatResponse_delegated req u engine rand hA, hE]
  · intro hE hDeg
    rw [getChatResponse_delegated req u engine rand hA, hE]
    show jsTrim (replyFromResult r) = fallbackText
    have hrep : replyFromResult r = fallbackText := by
      unfold replyFromResult
      rcases hDeg with h | h
      · rw [h]
      · rw [h]
        simp
    rw [hrep]
    decide

/-- Witness for C4 at "explain recursion": a failing engine yields the
apology, an engine resolving with an empty candidate list yields the
fallback. -/
theorem failure_and_degenerate_replies_witness :
    appreciationTest (normalizeMsg ("explain recursion")) = false ∧
    (getChatResponse ⟨"explain recursion", none⟩ (Except.ok none)
       (fun _ => Except.error ()) ⟨0, by decide⟩).1.content = apologyText ∧
    (getChatResponse ⟨"explain recursion", none⟩ (Except.ok none)
       (fun _ => Except.ok ⟨some ⟨some []⟩⟩) ⟨0, by decide⟩).1.content = fallbackText :=
  ⟨by decide,
   (failure_and_degenerate_replies ⟨"explain recursion", none⟩ none
      (fun _ => Except.error ()) ⟨0, by decide⟩ ⟨none⟩ (by decide)).2.2.1 rfl,
   (failure_and_degenerate_replies ⟨"explain recursion", none⟩ none
      (fun _ => Except.ok ⟨some ⟨some []⟩⟩) ⟨0, by decide⟩ ⟨some ⟨some []⟩⟩
      (by decide)).2.2.2 rfl (Or.inl (by decide))⟩

/-! ## C6 -/

/-- C6 counterexample: for the input
"Tell me briefly about machine learning, in one line" the brevity flag
is false — `/\bshort(en|ly)?\b/` does not match and the text does not
contain "short", since "briefly" is not a stem variant of "short" — while
the single-sentence flag is true, so the claimed directives
`brief: true, singleSentence: true` do not hold on the code. -/
theorem briefly_not_brief_counterexample :
    wantsShortTest (normalizeMsg ("Tell me briefly about machine learning, in one line"))
      = false ∧
    wantsOneLineTest (normalizeMsg ("Tell me briefly about machine learning, in one line"))
      = true := by
  decide

/-- C6 amended: for the input
"Tell me briefly about machine learning, in one line" the extracted
directives are `brief: false, singleSentence: true`, and the final
message carries exactly one appended directive line — the
single-sentence directive (no brevity line, no alternate-language
line). -/
theorem briefly_directives_amended (sc : String) :
    wantsShortTest (normalizeMsg ("Tell me briefly about machine learning, in one line"))
      = false ∧
    wantsOneLineTest (normalizeMsg ("Tell me briefly about machine learning, in one line"))
      = true ∧
    buildFinalMessage sc ("Tell me briefly about machine learning, in one line")
        (wantsShortTest (normalizeMsg ("Tell me briefly about machine learning, in one line")))
        (wantsOneLineTest (normalizeMsg ("Tell me briefly about machine learning, in one line")))
        (isTeluguTest ("Tell me briefly about machine learning, in one line"))
        (isDefinitionRequestTest (normalizeMsg ("Tell me briefly about machine learning, in one line"))) =
      sc ++ "\nUser: " ++ "Tell me briefly about machine learning, in one line" ++
        oneSentenceLine := by
  have h1 : wantsShortTest (normalizeMsg ("Tell me briefly about machine learning, in one line"))
      = false := by decide
  have h2 : wantsOneLineTest (normalizeMsg ("Tell me briefly about machine learning, in one line"))
      = true := by decide
  have h3 : isTeluguTest ("Tell me briefly about machine learning, in one line")
      = false := by decide
  have h4 : isDefinitionRequestTest (normalizeMsg ("Tell me briefly about machine learning, in one line"))
      = false := by decide
  refine ⟨h1, h2, ?_⟩
  rw [h1, h2, h3, h4]
  rfl

/-! ## C7 -/

/-- C7: in the career-advice context each skill of the snapshot is
rendered as `name (proficiency)` and the renderings are joined by
`", "` (lines 50–52); a null user document or an empty skill list
renders as the fixed non-empty placeholder `None`, which the career
context embeds verbatim. -/
theorem skills_rendering (s0 : Skill) (rest : List Skill) (t : Bool) :
    renderSkills none = "None" ∧
    renderSkills (some ⟨[]⟩) = "None" ∧
    ("None" : String) ≠ "" ∧
    renderSkills (some ⟨s0 :: rest⟩) = joinWith ", " ((s0 :: rest).map renderSkill) ∧
    renderSkill s0 = s0.skillName ++ " (" ++ s0.proficiency ++ ")" ∧
    buildSystemContext t false (renderSkills none) = careerContext ("None") ∧
    careerContext ("None") =
      "The user is asking for career advice. They have the following skills: None." := by
  refine ⟨rfl, rfl, by decide, by simp [renderSkills], rfl, ?_, by decide⟩
  cases t <;> rfl

/-! ## C8 -/

/-- C8: the effective intent classification of the handler is total and
assigns exactly one of the three intents — Appreciation iff the
appreciation regex matches the normalized text, else DefinitionRequest
iff a transliterated phrase (gurinchi/cheppu/chepu) occurs as a
substring or an English definition-question pattern matches with word
boundaries, otherwise CareerAdvice; in particular "explain recursion"
classifies as DefinitionRequest with no alternate script detected and an
English definition-request system context. -/
theorem intent_total_classification (msg sk : String) :
    (classifyIntent msg = Intent.appreciation ↔
      appreciationTest (normalizeMsg msg) = true) ∧
    (classifyIntent msg = Intent.definitionRequest ↔
      appreciationTest (normalizeMsg msg) = false ∧
      isDefinitionRequestTest (normalizeMsg msg) = true) ∧
    (classifyIntent msg = Intent.careerAdvice ↔
      appreciationTest (normalizeMsg msg) = false ∧
      isDefinitionRequestTest (normalizeMsg msg) = false) ∧
    classifyIntent ("explain recursion") = Intent.definitionRequest ∧
    isTeluguTest ("explain recursion") = false ∧
    buildSystemContext (isTeluguTest ("explain recursion"))
      (isDefinitionRequestTest (normalizeMsg ("explain recursion"))) sk =
      englishDefContext := by
  refine ⟨?_, ?_, ?_, by decide, by decide, ?_⟩
  · unfold classifyIntent
    by_cases hA : appreciationTest (normalizeMsg msg) = true
    · simp [hA]
    · by_cases hD : isDefinitionRequestTest (normalizeMsg msg) = true <;>
        simp [hA, hD]
  · unfold classifyIntent
    by_cases hA : appreciationTest (normalizeMsg msg) = true
    · simp [hA]
    · by_cases hD : isDefinitionRequestTest (normalizeMsg msg) = true <;>
        simp [hA, hD]
  · unfold classifyIntent
    by_cases hA : appreciationTest (normalizeMsg msg) = true
    · simp [hA]
    · by_cases hD : isDefinitionRequestTest (normalizeMsg msg) = true <;>
        simp [hA, hD]
  · have h1 : isTeluguTest ("explain recursion") = false := by decide
    have h2 : isDefinitionRequestTest (normalizeMsg ("explain recursion")) = true := by
      decide
    rw [h1, h2]
    rfl

/-! ## C10 -/

/-- C10: on every non-appreciation request the profile store is queried
exactly once (line 49), as the first external call and before any
engine call — including for definition-request messages whose prompt
never uses the skills — and a profile-store failure lands in the catch
block, producing the fixed apology reply whatever the intent. -/
theorem profile_fetch_policy (req : ChatRequest)
    (fetchSkills : Except Unit (Option UserDoc))
    (engine : List GenContentMsg → Except Unit GenResult)
    (rand : Fin quickReplies.length)
    (hA : appreciationTest (normalizeMsg req.message) = false) :
    (getChatResponse req fetchSkills engine rand).2.count ExtCall.profileFetch = 1 ∧
    (getChatResponse req fetchSkills engine rand).2.head? = some ExtCall.profileFetch ∧
    (fetchSkills = Except.error () →
      getChatResponse req fetchSkills engine rand =
        (⟨"assistant", apologyText⟩, [ExtCall.profileFetch])) := by
  cases fetchSkills with
  | error e =>
    have hE : getChatResponse req (Except.error e) engine rand =
        (⟨"assistant", apologyText⟩, [ExtCall.profileFetch]) := by
      unfold getChatResponse
      rw [if_neg (by simp [hA])]
    rw [hE]
    exact ⟨rfl, rfl, fun _ => rfl⟩
  | ok u =>
    rw [getChatResponse_delegated req u engine rand hA]
    cases engine (buildContents (req.history.getD [])
      (assembledFinalMessage req.message u)) with
    | error e2 =>
      exact ⟨by simp [List.count_cons], rfl, fun h => nomatch h⟩
    | ok r =>
      exact ⟨by simp [List.count_cons], rfl, fun h => nomatch h⟩

/-- Witness for C10 at the definition-request message
"what is recursion" with a failing profile store: exactly one profile
call, placed first, and the apology reply. -/
theorem profile_fetch_policy_witness :
    appreciationTest (normalizeMsg ("what is recursion")) = false ∧
    isDefinitionRequestTest (normalizeMsg ("what is recursion")) = true ∧
    ((getChatResponse ⟨"what is recursion", none⟩ (Except.error ())
        (fun _ => Except.error ()) ⟨0, by decide⟩).2.count ExtCall.profileFetch = 1 ∧
     (getChatResponse ⟨"what is recursion", none⟩ (Except.error ())
        (fun _ => Except.error ()) ⟨0, by decide⟩).2.head? = some ExtCall.profileFetch ∧
     (Except.error () = (Except.error () : Except Unit (Option UserDoc)) →
       getChatResponse ⟨"what is recursion", none⟩ (Except.error ())
         (fun _ => Except.error ()) ⟨0, by decide⟩ =
         (⟨"assistant", apologyText⟩, [ExtCall.profileFetch]))) :=
  ⟨by decide, by decide,
   profile_fetch_policy ⟨"what is recursion", none⟩ (Except.error ())
     (fun _ => Except.error ()) ⟨0, by decide⟩ (by decide)⟩

end MentorChat
